import Mathlib

/-!
# Verification of the originz storefront against its specification

This file gives a shallow embedding, in Lean 4, of the parts of the
originz Next.js storefront that the specification talks about:

* the API client `src/lib/api.ts` (`apiRequest`, `getAllProducts`,
  `searchProducts`, `getProductsByVendor`, `mapApiToProduct`);
* the centralized error handler (`ApiErrorHandler`, `clientErrorHandler`);
* the CSRF protection layer (`CSRFProtection`);
* the cart-items API route handler (`POST /api/cart/items`);
* the cart context reducer and its totals;
* the app's API route surface (cart, checkout, newsletter, feeds).

Pure functions of the source become Lean functions; effectful code
(`fetch`, Supabase queries, toasts) is embedded by passing the outcome of
each external call in explicitly (an oracle argument) and returning the
emitted effects as data.  Machine numbers of the source are embedded as
`Nat`/`Int`/`ℚ`.  Fallible code returns `Except`/`Option`.
-/

namespace Originz

/-! ## Embedding of the fetch layer (`src/lib/api.ts`)

A single `fetch` call either rejects (network error) or resolves to a
`Response` carrying `ok`, `status` and a raw byte body.  `apiRequest`
consults an oracle giving the outcome of the n-th fetch it would issue;
the trace records how many fetches were issued. -/

/-- Outcome of one `fetch` call. -/
inductive FetchResult where
  | networkError (msg : String)
  | response (ok : Bool) (status : Nat) (body : List Nat)
deriving Repr, DecidableEq

/-- Does this fetch outcome count as a failure (rejected promise or
non-ok response)? -/
def attemptFails : FetchResult → Bool
  | .networkError _ => true
  | .response ok _ _ => !ok

/-- Is this fetch outcome an ok response? -/
def respOk : FetchResult → Bool
  | .response true _ _ => true
  | _ => false

/-- `response.text()`: decode the raw body bytes to text (the bodies we
consider are ASCII). -/
def bodyText (body : List Nat) : String :=
  String.mk (body.map Char.ofNat)

/-- Embedding of `apiRequest` from `src/lib/api.ts`.  The source issues
exactly one `fetch(url, ...)`; if `!response.ok` it throws
`new Error("API request failed with status " + status + ": " + errorBody)`,
otherwise it resolves with the response body (to be decoded by
`response.json()`).  The first component of the result counts the fetches
issued (the body contains a single `await fetch`, so it is always 1); the
second is the raw outcome. -/
def apiRequestTrace (oracle : Nat → FetchResult) : Nat × Except String (List Nat) :=
  match oracle 0 with
  | .networkError m => (1, Except.error m)
  | .response ok status body =>
      if ok then (1, Except.ok body)
      else (1, Except.error
        ("API request failed with status " ++ toString status ++ ": " ++ bodyText body))

/-- Decoding of a JSON boolean payload, the fragment of `response.json()`
relevant to the serialization claims: the UTF-8 texts `true` and `false`.
Any other body makes `response.json()` reject. -/
def decodeJsonBool (body : List Nat) : Option Bool :=
  if body = [116, 114, 117, 101] then some true          -- "true"
  else if body = [102, 97, 108, 115, 101] then some false -- "false"
  else none

/-- Decoding of a MessagePack boolean payload: MessagePack encodes `true`
as the single byte 0xc3 and `false` as 0xc2. -/
def decodeMsgpackBool (body : List Nat) : Option Bool :=
  if body = [0xc3] then some true
  else if body = [0xc2] then some false
  else none

/-- `apiRequest` followed by `return response.json()` on the boolean
fragment: the value produced by the wrapper on success is the JSON
decoding of the body (a failed parse rejects the promise). -/
def apiRequestJson (oracle : Nat → FetchResult) : Except String Bool :=
  match (apiRequestTrace oracle).2 with
  | Except.error e => Except.error e
  | Except.ok body =>
      match decodeJsonBool body with
      | some v => Except.ok v
      | none => Except.error "Unexpected token in JSON"

/-- The retry behaviour claimed of the wrapper: whenever the first attempt
fails, the request is re-issued, i.e. at least two fetches are made. -/
def retriesOnFailure (oracle : Nat → FetchResult) : Prop :=
  attemptFails (oracle 0) = true → 2 ≤ (apiRequestTrace oracle).1

/-- The serialization behaviour claimed of the wrapper: on every
successful response, the wrapper's result is the MessagePack decoding of
the response payload. -/
def msgpackDecodeSpec (oracle : Nat → FetchResult) : Prop :=
  ∀ s body, oracle 0 = FetchResult.response true s body →
    apiRequestJson oracle =
      (match decodeMsgpackBool body with
       | some v => Except.ok v
       | none => Except.error "msgpack decode failed")

/-- A backend that is unreachable: every fetch attempt rejects. -/
def failOracle : Nat → FetchResult :=
  fun _ => FetchResult.networkError "ECONNREFUSED"

/-- A backend whose (single) response is 200 OK with JSON body `true`. -/
def jsonTrueOracle : Nat → FetchResult :=
  fun _ => FetchResult.response true 200 [116, 114, 117, 101]

/-! ## Embedding of the product list helpers (`src/lib/api.ts`)

The list helpers call `apiRequest<{ products: ApiProduct[] }>` and guard
the decoded `products` field with `Array.isArray`.  A JSON field that may
or may not be an array is embedded as `JsonArr`; the outcome of the fetch
plus `response.json()` at a products endpoint is embedded as `ListFetch`. -/

/-- A JSON value expected to be an array: either it is one, or it is
anything else (including `undefined`), which `Array.isArray` rejects. -/
inductive JsonArr (α : Type) where
  | notArr
  | arr (xs : List α)
deriving Repr, DecidableEq

/-- `Array.isArray(x) ? x : []`. -/
def JsonArr.asList {α : Type} : JsonArr α → List α
  | .notArr => []
  | .arr xs => xs

/-- An entry of `ApiProduct.images` (`src/lib/types.ts`). -/
structure ApiProductImage where
  id : String
  product_id : String
  position : Nat
  alt : Option String
  src : String
  width : Nat
  height : Nat
  created_at : String
  updated_at : String
deriving Repr, DecidableEq

/-- A product variant, with the fields `mapApiToProduct` copies. -/
structure ApiProductVariant where
  id : String
  title : String
  price : ℚ
  available : Bool
  featured_image : Option String
  product_id : String
  requires_shipping : Bool
  taxable : Bool
  grams : ℚ
  position : Nat
  created_at : String
  updated_at : String
deriving Repr, DecidableEq

/-- A product option, with the fields `mapApiToProduct` copies. -/
structure ApiProductOption where
  name : String
  position : Nat
  values : JsonArr String
  product_id : String
  id : String
deriving Repr, DecidableEq

/-- The API product record (`src/lib/types.ts`), with the fields
`mapApiToProduct` copies.  Fields the source guards with `Array.isArray`
are embedded as `JsonArr`. -/
structure ApiProduct where
  id : String
  title : String
  handle : String
  body_html : String
  price : ℚ
  compare_at_price : Option ℚ
  images : JsonArr ApiProductImage
  category : Option String
  in_stock : Bool
  rating : ℚ
  review_count : Nat
  tags : JsonArr String
  vendor : String
  variants : JsonArr ApiProductVariant
  options : JsonArr ApiProductOption
  created_at : String
  updated_at : String
deriving Repr, DecidableEq

/-- The per-variant mapping inside `mapApiToProduct`. -/
def mapVariant (variant : ApiProductVariant) : ApiProductVariant :=
  { id := variant.id
    title := variant.title
    price := variant.price
    available := variant.available
    featured_image := variant.featured_image
    product_id := variant.product_id
    requires_shipping := variant.requires_shipping
    taxable := variant.taxable
    grams := variant.grams
    position := variant.position
    created_at := variant.created_at
    updated_at := variant.updated_at }

/-- The per-option mapping inside `mapApiToProduct`. -/
def mapOption (opt : ApiProductOption) : ApiProductOption :=
  { name := opt.name
    position := opt.position
    values := JsonArr.arr opt.values.asList
    product_id := opt.product_id
    id := opt.id }

/-- `mapApiToProduct` from `src/lib/api.ts` (the guarded version):
array-valued fields are defaulted to `[]` when not arrays, variants and
options are rebuilt field by field. -/
def mapApiToProduct (apiProduct : ApiProduct) : ApiProduct :=
  { id := apiProduct.id
    title := apiProduct.title
    handle := apiProduct.handle
    body_html := apiProduct.body_html
    price := apiProduct.price
    compare_at_price := apiProduct.compare_at_price
    images := JsonArr.arr apiProduct.images.asList
    category := apiProduct.category
    in_stock := apiProduct.in_stock
    rating := apiProduct.rating
    review_count := apiProduct.review_count
    tags := JsonArr.arr apiProduct.tags.asList
    vendor := apiProduct.vendor
    variants := JsonArr.arr (apiProduct.variants.asList.map mapVariant)
    options := JsonArr.arr (apiProduct.options.asList.map mapOption)
    created_at := apiProduct.created_at
    updated_at := apiProduct.updated_at }

/-- The decoded `products` field of a list endpoint's response. -/
inductive ProductsField where
  | notArr
  | arr (ps : List ApiProduct)
deriving Repr, DecidableEq

/-- The decoded body of a list endpoint's 200 response. -/
structure ProductsResponse where
  products : ProductsField
deriving Repr, DecidableEq

/-- Outcome of `apiRequest` + `response.json()` at a list endpoint:
rejected fetch, non-ok response (which makes `apiRequest` throw), or a
decoded body. -/
inductive ListFetch where
  | networkError (msg : String)
  | httpError (status : Nat) (body : String)
  | success (data : ProductsResponse)
deriving Repr, DecidableEq

/-- `apiRequest` at a list endpoint: throws the fetch error, or the
status error for a non-ok response, or resolves with the decoded body. -/
def apiRequestList : ListFetch → Except String ProductsResponse
  | .networkError m => Except.error m
  | .httpError status body =>
      Except.error ("API request failed with status " ++ toString status ++ ": " ++ body)
  | .success d => Except.ok d

/-- Did the request at this endpoint fail (rejected fetch or non-ok
response)? -/
def listFailure : ListFetch → Bool
  | .networkError _ => true
  | .httpError _ _ => true
  | .success _ => false

/-- Did the request succeed with a `products` field that is not an
array? -/
def productsNotArray : ListFetch → Bool
  | .success d =>
      match d.products with
      | .notArr => true
      | .arr _ => false
  | _ => false

/-- The options bag of `getAllProducts`. -/
structure GetAllOptions where
  limit : Option Nat
  page : Option Nat
deriving Repr, DecidableEq

/-- JavaScript truthiness test used by `if (options?.limit)`: an absent
or zero number is falsy. -/
def natTruthy : Option Nat → Bool
  | none => false
  | some n => n ≠ 0

/-- Endpoint built by `getAllProducts` with `URLSearchParams`. -/
def getAllProductsEndpoint (opts : GetAllOptions) : String :=
  let params :=
    (if natTruthy opts.limit then ["limit=" ++ toString (opts.limit.getD 0)] else []) ++
    (if natTruthy opts.page then ["page=" ++ toString (opts.page.getD 0)] else [])
  let queryString := String.intercalate "&" params
  if queryString ≠ "" then "/products?" ++ queryString else "/products"

/-- `getAllProducts` from `src/lib/api.ts`: requests the products
endpoint, maps `mapApiToProduct` over the `products` array when it is
one, and catches any thrown error, returning `[]`.  The outcome of the
request at each endpoint is supplied by `oracle`. -/
def getAllProducts (opts : GetAllOptions) (oracle : String → ListFetch) : List ApiProduct :=
  let endpoint := getAllProductsEndpoint opts
  match apiRequestList (oracle endpoint) with
  | Except.error _ => []
  | Except.ok data =>
      match data.products with
      | .arr ps => ps.map mapApiToProduct
      | .notArr => []

/-- Endpoint built by `searchProducts`; `encode` stands for
`encodeURIComponent`. -/
def searchProductsEndpoint (encode : String → String) (query : String) : String :=
  "/products/search?q=" ++ encode query

/-- `searchProducts` from `src/lib/api.ts`. -/
def searchProducts (encode : String → String) (query : String)
    (oracle : String → ListFetch) : List ApiProduct :=
  match apiRequestList (oracle (searchProductsEndpoint encode query)) with
  | Except.error _ => []
  | Except.ok data =>
      match data.products with
      | .arr ps => ps.map mapApiToProduct
      | .notArr => []

/-- Endpoint built by `getProductsByVendor`; `encode` stands for
`encodeURIComponent`. -/
def getProductsByVendorEndpoint (encode : String → String) (vendor : String) : String :=
  "/products?vendor=" ++ encode vendor

/-- `getProductsByVendor` from `src/lib/api.ts`. -/
def getProductsByVendor (encode : String → String) (vendor : String)
    (oracle : String → ListFetch) : List ApiProduct :=
  match apiRequestList (oracle (getProductsByVendorEndpoint encode vendor)) with
  | Except.error _ => []
  | Except.ok data =>
      match data.products with
      | .arr ps => ps.map mapApiToProduct
      | .notArr => []

/-! ## Embedding of the centralized error handler (`lib/error-handler.ts`)

`ApiErrorHandler` normalizes every thrown value to an `ApiError`, then —
on the client path — logs it and shows a toast when configured to.
Toasts are effects; the embedding returns the list of toasts emitted. -/

/-- Error categories of the handler. -/
inductive ErrorCategory where
  | authentication | validation | permission | notFound | conflict
  | server | externalApi | network | unknown
deriving Repr, DecidableEq

/-- Error severity levels of the handler. -/
inductive ErrorSeverity where
  | low | medium | high | critical
deriving Repr, DecidableEq

/-- The normalized `ApiError` shape (`lib/errors.ts`): optional fields of
the TS interface are embedded as `Option`. -/
structure ApiError where
  message : String
  status : Option Nat
  code : Option String
  endpoint : Option String
  timestamp : String
deriving Repr, DecidableEq

/-- `ErrorHandlerConfig` from the error handler. -/
structure ErrorHandlerConfig where
  logError : Bool
  showToast : Bool
  includeStack : Bool
  sanitizeMessage : Bool
deriving Repr, DecidableEq

/-- `DEFAULT_CONFIG`: `includeStack` in development, `sanitizeMessage` in
production; the environment flags are passed in. -/
def defaultHandlerConfig (isDev isProd : Bool) : ErrorHandlerConfig :=
  { logError := true
    showToast := true
    includeStack := isDev
    sanitizeMessage := isProd }

/-- The config of the `clientErrorHandler` singleton:
`new ApiErrorHandler({ logError: true, showToast: true })`. -/
def clientErrorHandlerConfig (isDev isProd : Bool) : ErrorHandlerConfig :=
  { defaultHandlerConfig isDev isProd with logError := true, showToast := true }

/-- The config of the `apiErrorHandler` singleton:
`new ApiErrorHandler({ logError: true, showToast: false })` — API routes
do not show toasts. -/
def apiErrorHandlerConfig (isDev isProd : Bool) : ErrorHandlerConfig :=
  { defaultHandlerConfig isDev isProd with logError := true, showToast := false }

/-- A thrown JavaScript value as classified by `normalizeError`'s
`instanceof` chain: an `ApiClientError` (whose `toJSON()` carries these
fields), a `ValidationError`, a `ShopifyApiError`, a plain `Error`, or
any non-`Error` value. -/
inductive JsError where
  | apiClientError (message : String) (status : Nat) (code : Option String)
      (endpoint : Option String) (timestamp : String)
  | validationError (message : String)
  | shopifyApiError (message : String) (status : Option Nat)
  | stdError (message : String)
  | nonError
deriving Repr, DecidableEq

/-- `ERROR_MESSAGES.UNEXPECTED_ERROR`. -/
def unexpectedErrorMessage : String := "An unexpected error occurred"

/-- JavaScript `x || d` on an optional number: `undefined` and `0` are
falsy. -/
def jsOrNat (x : Option Nat) (d : Nat) : Nat :=
  match x with
  | none => d
  | some n => if n = 0 then d else n

/-- `ApiErrorHandler.sanitizeMessage`: the identity unless the config
asks for sanitizing, in which case the regex pipeline (embedded as the
`strip` argument) removes stack traces and sensitive words. -/
def sanitizeMessage (cfg : ErrorHandlerConfig) (strip : String → String) (m : String) : String :=
  if cfg.sanitizeMessage then strip m else m

/-- `ApiErrorHandler.normalizeError`: maps each thrown value to an
`ApiError`.  `now` is `new Date().toISOString()` and `endpoint` is
`context?.endpoint`. -/
def normalizeError (cfg : ErrorHandlerConfig) (strip : String → String)
    (now : String) (endpoint : Option String) : JsError → ApiError
  | .apiClientError m s c ep ts =>
      { message := m, status := some s, code := c, endpoint := ep, timestamp := ts }
  | .validationError m =>
      { message := m, status := some 400, code := some "validation_error"
        endpoint := endpoint, timestamp := now }
  | .shopifyApiError m st =>
      { message := m, status := some (jsOrNat st 502), code := some "shopify_api_error"
        endpoint := endpoint, timestamp := now }
  | .stdError m =>
      { message := sanitizeMessage cfg strip m, status := some 500
        code := some "internal_error", endpoint := endpoint, timestamp := now }
  | .nonError =>
      { message := unexpectedErrorMessage, status := some 500
        code := some "unknown_error", endpoint := endpoint, timestamp := now }

/-- JavaScript `status && status >= 500` on an optional number. -/
def statusGe500 (st : Option Nat) : Bool :=
  match st with
  | some n => n ≠ 0 && 500 ≤ n
  | none => false

/-- `ApiErrorHandler.getErrorCategory`. -/
def getErrorCategory (e : ApiError) : ErrorCategory :=
  if e.status = some 401 ∨ e.code = some "unauthorized" then .authentication
  else if e.status = some 400 ∨ e.code = some "validation_error" then .validation
  else if e.status = some 403 ∨ e.code = some "forbidden" then .permission
  else if e.status = some 404 ∨ e.code = some "not_found" then .notFound
  else if e.status = some 409 ∨ e.code = some "conflict" then .conflict
  else if statusGe500 e.status then .server
  else if e.code = some "shopify_api_error" ∨ e.code = some "external_api_error" then .externalApi
  else if e.code = some "network_error" ∨ e.code = some "timeout_error" then .network
  else .unknown

/-- `ApiErrorHandler.getErrorSeverity`. -/
def getErrorSeverity (e : ApiError) : ErrorSeverity :=
  if e.status = some 401 ∨ e.status = some 403 then .high
  else if statusGe500 e.status then .critical
  else if e.status = some 404 then .medium
  else if e.status = some 400 then .low
  else .medium

/-- `ApiErrorHandler.getUserFriendlyMessage`. -/
def getUserFriendlyMessage (e : ApiError) : String :=
  match getErrorCategory e with
  | .authentication => "You need to sign in to access this resource"
  | .validation => "Please check your input and try again"
  | .permission => "You don't have permission to access this resource"
  | .notFound => "The requested resource was not found"
  | .conflict => "This resource already exists"
  | .server => "An internal server error occurred"
  | .externalApi => "External service is temporarily unavailable"
  | .network => "Network connection failed"
  | .unknown => unexpectedErrorMessage

/-- Kind of a toast shown through `sonner`. -/
inductive ToastKind where
  | error | success
deriving Repr, DecidableEq

/-- A toast notification as emitted by the handler. -/
structure Toast where
  kind : ToastKind
  message : String
  duration : Nat
deriving Repr, DecidableEq

/-- `ApiErrorHandler.showErrorToast`: duration 8000 for critical errors,
4000 otherwise; every branch of the severity switch calls
`toast.error`. -/
def showErrorToast (e : ApiError) : Toast :=
  let message := getUserFriendlyMessage e
  let severity := getErrorSeverity e
  let duration := if severity = .critical then 8000 else 4000
  if severity = .critical then { kind := .error, message := message, duration := duration }
  else if severity = .high then { kind := .error, message := message, duration := duration }
  else { kind := .error, message := message, duration := duration }

/-- `ApiErrorHandler.handleClientError`: normalize the error, log it when
configured (logging emits no data), and show a toast when configured.
The returned list is the toasts emitted. -/
def handleClientError (cfg : ErrorHandlerConfig) (strip : String → String)
    (now : String) (endpoint : Option String) (e : JsError) : List Toast :=
  let apiError := normalizeError cfg strip now endpoint e
  if cfg.showToast then [showErrorToast apiError] else []

/-! ## Embedding of the cart-items route (`src/app/api/cart/items/route.ts`)

The handler runs against Supabase tables `carts` and `cart_items`,
embedded here as plain lists.  `.single()` yields the row when the query
matched exactly one row; zero rows give the `PGRST116` error (observed by
the get-or-create logic), and in the duplicate lookup the error is
discarded, so zero or several matches both read as "no existing item". -/

/-- A row of the `carts` table. -/
structure CartRow where
  id : Nat
  userId : String
deriving Repr, DecidableEq

/-- A row of the `cart_items` table. -/
structure CartItemRow where
  id : Nat
  cartId : Nat
  productId : String
  variantId : Option String
  quantity : Int
deriving Repr, DecidableEq

/-- The database state the handler touches. -/
structure CartDB where
  carts : List CartRow
  items : List CartItemRow
deriving Repr, DecidableEq

/-- `product_id` of the request body: `string | number`. -/
inductive ProductIdVal where
  | str (s : String)
  | num (n : Int)
deriving Repr, DecidableEq

/-- JavaScript falsiness of `product_id` (`!product_id`): the empty
string and the number 0. -/
def productIdFalsy : ProductIdVal → Bool
  | .str s => s = ""
  | .num n => n = 0

/-- `String(product_id)`. -/
def productIdString : ProductIdVal → String
  | .str s => s
  | .num n => toString n

/-- The request body `CartItemInput` (`variant_id` defaults to null). -/
structure CartItemInput where
  product_id : ProductIdVal
  variant_id : Option String
  quantity : Int
deriving Repr, DecidableEq

/-- `.single()` when its error is discarded: the row if the query matched
exactly one row, otherwise nothing. -/
def singleRow {α : Type} (rows : List α) : Option α :=
  match rows with
  | [x] => some x
  | _ => none

/-- The deduplication key of a cart item. -/
def itemKey (it : CartItemRow) : String × Option String :=
  (it.productId, it.variantId)

/-- The quantity update applied to the existing item
(`quantity: existingItem.quantity + quantity`). -/
def bumpQuantity (eid : Nat) (q : Int) (it : CartItemRow) : CartItemRow :=
  if it.id = eid then { it with quantity := it.quantity + q } else it

/-- The existing-item lookup: rows of `cart_items` with this cart id,
product id and variant id. -/
def matchingItems (db : CartDB) (cartId : Nat) (pidStr : String)
    (variantId : Option String) : List CartItemRow :=
  db.items.filter fun it =>
    decide (it.cartId = cartId ∧ it.productId = pidStr ∧ it.variantId = variantId)

/-- The update-or-insert tail of the handler: update the existing item's
quantity and respond 200, or insert a new item (with a fresh row id) and
respond 201. -/
def addOrUpdateItem (db : CartDB) (cartId : Nat) (pidStr : String)
    (variantId : Option String) (q : Int) (freshItemId : Nat) : CartDB × Nat :=
  match singleRow (matchingItems db cartId pidStr variantId) with
  | some existing =>
      ({ db with items := db.items.map (bumpQuantity existing.id q) }, 200)
  | none =>
      ({ db with items := db.items ++
          [{ id := freshItemId, cartId := cartId, productId := pidStr
             variantId := variantId, quantity := q }] }, 201)

/-- `POST` of `src/app/api/cart/items/route.ts`: 401 without a user, 400
on a falsy product id or non-positive quantity; otherwise get or create
the user's cart (`.single()` on zero rows is `PGRST116` and triggers the
insert; several rows are a different error, thrown and turned into 500 by
the catch-all), then update or insert the item.  The pair returned is the
new database state and the HTTP status. -/
def postCartItem (user : Option String) (body : CartItemInput)
    (freshCartId freshItemId : Nat) (db : CartDB) : CartDB × Nat :=
  match user with
  | none => (db, 401)
  | some uid =>
      if productIdFalsy body.product_id || body.quantity ≤ 0 then (db, 400)
      else
        let pidStr := productIdString body.product_id
        match db.carts.filter (fun c => decide (c.userId = uid)) with
        | [] =>
            let cart : CartRow := { id := freshCartId, userId := uid }
            let db1 : CartDB := { db with carts := db.carts ++ [cart] }
            addOrUpdateItem db1 cart.id pidStr body.variant_id body.quantity freshItemId
        | [c] => addOrUpdateItem db c.id pidStr body.variant_id body.quantity freshItemId
        | _ => (db, 500)

/-- The cart with this id has at most one row per
`(product_id, variant_id)` pair. -/
def cartKeysUnique (db : CartDB) (cartId : Nat) : Prop :=
  ((db.items.filter fun it => decide (it.cartId = cartId)).map itemKey).Nodup

/-! ## Embedding of the CSRF protection layer (`lib/security/csrf-protection.ts`)

Tokens are hex strings (`crypto.randomBytes(n).toString('hex')`), signed
with an HMAC whose hex digest is appended after a dot.  The HMAC itself
(`crypto.createHmac('sha256', secret)`) is embedded as a function
argument `hmac : String → String → List Nat` from secret and message to
digest bytes; `digest('hex')` is hex-encoding those bytes.  JavaScript's
`split('.')` and Node's `Buffer.from(s, 'hex')` are embedded below. -/

/-- The sixteen lowercase hex digits, as produced by `toString('hex')`. -/
def hexChar (n : Nat) : Char :=
  "0123456789abcdef".data.getD n '0'

/-- Hex encoding of one byte (two lowercase digits). -/
def hexEncodeByte (b : Nat) : List Char :=
  [hexChar (b / 16 % 16), hexChar (b % 16)]

/-- `bytes.toString('hex')`. -/
def hexEncode (bytes : List Nat) : String :=
  String.mk ((bytes.map hexEncodeByte).flatten)

/-- The value of a hex digit, if the character is one. -/
def hexDigitVal (c : Char) : Option Nat :=
  if '0' ≤ c ∧ c ≤ '9' then some (c.toNat - 48)
  else if 'a' ≤ c ∧ c ≤ 'f' then some (c.toNat - 87)
  else if 'A' ≤ c ∧ c ≤ 'F' then some (c.toNat - 55)
  else none

/-- `Buffer.from(s, 'hex')`: consume hex digit pairs, stopping at the
first invalid character (an incomplete trailing pair is dropped). -/
def hexDecodeAux : List Char → List Nat
  | c1 :: c2 :: rest =>
      match hexDigitVal c1, hexDigitVal c2 with
      | some hi, some lo => (16 * hi + lo) :: hexDecodeAux rest
      | _, _ => []
  | _ => []

/-- `Buffer.from(s, 'hex')` on a string. -/
def hexDecode (s : String) : List Nat :=
  hexDecodeAux s.data

/-- JavaScript `s.split(sep)` on character lists (empty segments are
kept, as in JavaScript). -/
def jsSplitAux (sep : Char) : List Char → List Char → List (List Char)
  | [], acc => [acc.reverse]
  | c :: cs, acc =>
      if c = sep then acc.reverse :: jsSplitAux sep cs []
      else jsSplitAux sep cs (c :: acc)

/-- JavaScript `s.split(sep)`. -/
def jsSplit (sep : Char) (s : String) : List String :=
  (jsSplitAux sep s.data []).map String.mk

/-- `CSRFProtection.generateToken`:
`crypto.randomBytes(tokenLength).toString('hex')`; the random bytes drawn
are passed in. -/
def generateToken (randomBytes : List Nat) : String :=
  hexEncode randomBytes

/-- `CSRFProtection.createSignedToken`: append the hex HMAC digest of
the token after a dot. -/
def createSignedToken (hmac : String → String → List Nat) (secret token : String) : String :=
  token ++ "." ++ hexEncode (hmac secret token)

/-- `CSRFProtection.verifySignedToken`: split on the dot, reject a
missing or empty part, recompute the signature and compare with
`crypto.timingSafeEqual` on the hex-decoded buffers (a length mismatch
throws, which the surrounding try/catch turns into `false`). -/
def verifySignedToken (hmac : String → String → List Nat) (secret signedToken : String) : Bool :=
  match jsSplit '.' signedToken with
  | token :: signature :: _ =>
      if token = "" ∨ signature = "" then false
      else
        let expectedSignature := hexEncode (hmac secret token)
        let a := hexDecode signature
        let b := hexDecode expectedSignature
        if a.length ≠ b.length then false else decide (a = b)
  | _ => false

/-- The cookie and header of an incoming request, as the CSRF layer sees
them: `request.cookies.get(name)?.value` and
`request.headers.get(name)`. -/
structure CsrfRequest where
  cookieVal : Option String
  headerVal : Option String
deriving Repr, DecidableEq

/-- `CSRFProtection.getTokenFromCookie`: `cookie?.value || null` — a
missing cookie or an empty value both give null. -/
def getTokenFromCookie (r : CsrfRequest) : Option String :=
  match r.cookieVal with
  | some v => if v = "" then none else some v
  | none => none

/-- `CSRFProtection.getTokenFromHeader`. -/
def getTokenFromHeader (r : CsrfRequest) : Option String :=
  r.headerVal

/-- `CSRFProtection.validateToken`: both tokens must be present (and
truthy), the cookie token must verify, and its part before the dot must
equal the header token. -/
def validateToken (hmac : String → String → List Nat) (secret : String)
    (r : CsrfRequest) : Bool :=
  match getTokenFromCookie r, getTokenFromHeader r with
  | some cookieToken, some headerToken =>
      if headerToken = "" then false
      else if verifySignedToken hmac secret cookieToken then
        decide ((jsSplit '.' cookieToken).headD "" = headerToken)
      else false
  | _, _ => false

/-! ## Model of the cart context (`contexts/cart-context.tsx`)

The cart context implementation is not among the provided sources — only
its test suite and its callers are — so the state and operations below
are modelled from the specification ("a reducer over a list of line
items") and pinned by the behaviour the test suite demands. -/

/-- Modelled from the spec: a cart line item of the cart context
(`contexts/cart-context.tsx`, not among the provided sources) — a
product/variant pair with its unit price and quantity. -/
structure CartLineItem where
  productId : String
  variantId : String
  price : ℚ
  quantity : Nat
deriving Repr, DecidableEq

/-- Modelled from the spec: the actions of the cart reducer, one per
operation the cart context exposes. -/
inductive CartAction where
  | addItem (productId variantId : String) (price : ℚ) (quantity : Nat)
  | removeItem (productId variantId : String)
  | updateQuantity (productId variantId : String) (quantity : Nat)
  | clearCart
deriving Repr, DecidableEq

/-- Modelled from the spec: the pure cart reducer over the list of line
items.  Adding an already-present variant merges quantities (the test
suite: adding the same variant twice yields the summed quantity);
updating a quantity to zero removes the line; clearing empties the
cart. -/
def cartReducer (items : List CartLineItem) : CartAction → List CartLineItem
  | .addItem pid vid price qty =>
      if items.any (fun it => decide (it.productId = pid ∧ it.variantId = vid)) then
        items.map fun it =>
          if it.productId = pid ∧ it.variantId = vid then
            { it with quantity := it.quantity + qty }
          else it
      else items ++ [{ productId := pid, variantId := vid, price := price, quantity := qty }]
  | .removeItem pid vid =>
      items.filter fun it => decide (¬(it.productId = pid ∧ it.variantId = vid))
  | .updateQuantity pid vid qty =>
      if qty = 0 then
        items.filter fun it => decide (¬(it.productId = pid ∧ it.variantId = vid))
      else
        items.map fun it =>
          if it.productId = pid ∧ it.variantId = vid then { it with quantity := qty }
          else it
  | .clearCart => []

/-- Modelled from the spec: the state held by `CartProvider` (the open
flag plays no role in the reducer claims). -/
structure CartState where
  items : List CartLineItem
  isOpen : Bool
deriving Repr, DecidableEq

/-- Modelled from the spec: `addItem` of the cart context — look the
variant up and either merge quantities or append a new line. -/
def addItem (s : CartState) (pid vid : String) (price : ℚ) (qty : Nat) : CartState :=
  match s.items.find? (fun it => decide (it.productId = pid ∧ it.variantId = vid)) with
  | some _ =>
      { s with items := s.items.map fun it =>
          if it.productId = pid ∧ it.variantId = vid then
            { it with quantity := it.quantity + qty }
          else it }
  | none =>
      { s with items := s.items ++
          [{ productId := pid, variantId := vid, price := price, quantity := qty }] }

/-- Modelled from the spec: `removeItem` of the cart context. -/
def removeItem (s : CartState) (pid vid : String) : CartState :=
  { s with items := s.items.filter fun it =>
      decide (¬(it.productId = pid ∧ it.variantId = vid)) }

/-- Modelled from the spec: `updateQuantity` of the cart context — a
zero quantity removes the line (the test suite: updating to 0 removes
the item). -/
def updateQuantity (s : CartState) (pid vid : String) (qty : Nat) : CartState :=
  if qty = 0 then removeItem s pid vid
  else
    { s with items := s.items.map fun it =>
        if it.productId = pid ∧ it.variantId = vid then { it with quantity := qty }
        else it }

/-- Modelled from the spec: `clearCart` of the cart context. -/
def clearCart (s : CartState) : CartState :=
  { s with items := [] }

/-- Modelled from the spec: `getTotalItems` — the sum of the
quantities. -/
def getTotalItems (items : List CartLineItem) : Nat :=
  (items.map (fun it => it.quantity)).sum

/-- Modelled from the spec: `getTotalPrice` — the sum of price times
quantity. -/
def getTotalPrice (items : List CartLineItem) : ℚ :=
  (items.map (fun it => it.price * (it.quantity : ℚ))).sum

/-! ## The app's API route surface

Route entries for cart and feeds are read off the sources
(`src/app/api/cart/items/route.ts` exports `POST`/`PUT`/`DELETE`,
`src/app/api/feed/bing-merchant/index.xml/route.ts` exports `GET`). -/

/-- The four route areas the specification names. -/
inductive ApiArea where
  | cart | checkout | newsletter | feeds
deriving Repr, DecidableEq

/-- An exported Next.js route handler. -/
structure ApiRoute where
  area : ApiArea
  method : String
  path : String
deriving Repr, DecidableEq

/-- Modelled from the spec: the app's API route surface.  The cart and
feed entries are read off the provided route files; the checkout and
newsletter route files are not among the provided sources, so those two
entries are modelled from the specification and the repository's API
inventory (`POST /api/cart/checkout`, `POST /api/newsletter`). -/
def appApiRoutes : List ApiRoute :=
  [{ area := .cart, method := "POST", path := "/api/cart/items" },
   { area := .cart, method := "PUT", path := "/api/cart/items" },
   { area := .cart, method := "DELETE", path := "/api/cart/items" },
   { area := .feeds, method := "GET", path := "/api/feed/bing-merchant/index.xml" },
   { area := .checkout, method := "POST", path := "/api/cart/checkout" },
   { area := .newsletter, method := "POST", path := "/api/newsletter" }]

/-! ## Theorems -/

/-- C1 (counterexample): the fetch wrapper does not retry.  Against a
backend where every attempt rejects, `apiRequest` performs a single
attempt and fails, contradicting the claim that a failed request is
re-issued with backoff. -/
theorem apiRequest_no_retry_counterexample :
    ¬ ∀ oracle : Nat → FetchResult, retriesOnFailure oracle := by
  intro h
  have h1 : attemptFails (failOracle 0) = true := rfl
  have h2 := h failOracle h1
  have h3 : (apiRequestTrace failOracle).1 = 1 := rfl
  omega

/-- C1 (amended): `apiRequest` performs exactly one fetch attempt per
request, and the wrapper succeeds exactly when that single response is
ok — on a rejected fetch or a non-ok response it fails without
re-issuing the request. -/
theorem apiRequest_single_attempt (oracle : Nat → FetchResult) :
    (apiRequestTrace oracle).1 = 1 ∧
      (apiRequestTrace oracle).2.isOk = respOk (oracle 0) := by
  unfold apiRequestTrace respOk
  rcases oracle 0 with m | ⟨ok, status, body⟩
  · exact ⟨rfl, rfl⟩
  · cases ok <;> exact ⟨rfl, rfl⟩

/-- C2 (counterexample): the wrapper's result is not the MessagePack
decoding of the payload.  For the 200 OK response with body `"true"`
(the JSON encoding of the boolean `true`), the wrapper resolves with
`true`, while MessagePack decoding of that payload fails (MessagePack
`true` is the byte 0xc3, not the text `true`). -/
theorem apiRequest_not_msgpack_counterexample :
    ¬ msgpackDecodeSpec jsonTrueOracle := by
  intro h
  have h1 := h 200 [116, 114, 117, 101] rfl
  have h2 : apiRequestJson jsonTrueOracle = Except.ok true := rfl
  rw [h2] at h1
  simp [decodeMsgpackBool] at h1

/-- C2 (amended): for every successful response, the wrapper's result is
obtained by JSON-parsing the response payload (`response.json()`), not by
MessagePack-decoding it. -/
theorem apiRequest_decodes_json (oracle : Nat → FetchResult)
    (s : Nat) (body : List Nat) (v : Bool)
    (hresp : oracle 0 = FetchResult.response true s body)
    (hdec : decodeJsonBool body = some v) :
    apiRequestJson oracle = Except.ok v := by
  unfold apiRequestJson apiRequestTrace
  rw [hresp]
  simp [hdec]

/-- Witness for C2 (amended) at the concrete 200 OK response with JSON
body `true`. -/
theorem apiRequest_decodes_json_witness :
    apiRequestJson jsonTrueOracle = Except.ok true :=
  apiRequest_decodes_json jsonTrueOracle 200 [116, 114, 117, 101] true rfl rfl

/-- C6: the list-returning product fetch helpers never propagate a
request failure: whenever the request at the helper's endpoint fails
(rejected fetch or non-ok response) or succeeds with a `products` field
that is not an array, `getAllProducts`, `searchProducts` and
`getProductsByVendor` return the empty list (and in every case they
return a list, as their return type shows). -/
theorem listHelpers_never_throw (encode : String → String) (opts : GetAllOptions)
    (query vendor : String) (oracle : String → ListFetch) :
    ((listFailure (oracle (getAllProductsEndpoint opts)) = true ∨
        productsNotArray (oracle (getAllProductsEndpoint opts)) = true) →
      getAllProducts opts oracle = []) ∧
    ((listFailure (oracle (searchProductsEndpoint encode query)) = true ∨
        productsNotArray (oracle (searchProductsEndpoint encode query)) = true) →
      searchProducts encode query oracle = []) ∧
    ((listFailure (oracle (getProductsByVendorEndpoint encode vendor)) = true ∨
        productsNotArray (oracle (getProductsByVendorEndpoint encode vendor)) = true) →
      getProductsByVendor encode vendor oracle = []) := by
  refine ⟨?_, ?_, ?_⟩ <;> intro h
  · unfold getAllProducts
    rcases hco : oracle (getAllProductsEndpoint opts) with m | ⟨s, b⟩ | d
    · simp [apiRequestList, hco]
    · simp [apiRequestList, hco]
    · rw [hco] at h
      rcases hp : d.products with _ | ps
      · simp [apiRequestList, hco, hp]
      · simp [listFailure, productsNotArray, hp] at h
  · unfold searchProducts
    rcases hco : oracle (searchProductsEndpoint encode query) with m | ⟨s, b⟩ | d
    · simp [apiRequestList, hco]
    · simp [apiRequestList, hco]
    · rw [hco] at h
      rcases hp : d.products with _ | ps
      · simp [apiRequestList, hco, hp]
      · simp [listFailure, productsNotArray, hp] at h
  · unfold getProductsByVendor
    rcases hco : oracle (getProductsByVendorEndpoint encode vendor) with m | ⟨s, b⟩ | d
    · simp [apiRequestList, hco]
    · simp [apiRequestList, hco]
    · rw [hco] at h
      rcases hp : d.products with _ | ps
      · simp [apiRequestList, hco, hp]
      · simp [listFailure, productsNotArray, hp] at h

/-- Witness for C6 at a backend where every request rejects: all three
helpers return `[]`. -/
theorem listHelpers_never_throw_witness :
    getAllProducts ⟨none, none⟩ (fun _ => ListFetch.networkError "down") = [] ∧
    searchProducts id "shoes" (fun _ => ListFetch.networkError "down") = [] ∧
    getProductsByVendor id "acme" (fun _ => ListFetch.networkError "down") = [] := by
  obtain ⟨h1, h2, h3⟩ :=
    listHelpers_never_throw id ⟨none, none⟩ "shoes" "acme"
      (fun _ => ListFetch.networkError "down")
  exact ⟨h1 (Or.inl rfl), h2 (Or.inl rfl), h3 (Or.inl rfl)⟩

/-- `bumpQuantity` changes neither the key nor the cart of an item. -/
theorem bumpQuantity_preserves (eid : Nat) (q : Int) (it : CartItemRow) :
    itemKey (bumpQuantity eid q it) = itemKey it ∧
      (bumpQuantity eid q it).cartId = it.cartId ∧
      (bumpQuantity eid q it).id = it.id := by
  unfold bumpQuantity itemKey
  split <;> exact ⟨rfl, rfl, rfl⟩

/-- Updating a quantity leaves the multiset of keys of any cart
untouched. -/
theorem keys_map_bump (l : List CartItemRow) (cid eid : Nat) (q : Int) :
    ((l.map (bumpQuantity eid q)).filter fun it => decide (it.cartId = cid)).map itemKey =
      (l.filter fun it => decide (it.cartId = cid)).map itemKey := by
  induction l with
  | nil => rfl
  | cons x xs ih =>
      have hc : (bumpQuantity eid q x).cartId = x.cartId := (bumpQuantity_preserves eid q x).2.1
      have hk : itemKey (bumpQuantity eid q x) = itemKey x := (bumpQuantity_preserves eid q x).1
      simp only [List.map_cons, List.filter_cons, hc]
      by_cases h : x.cartId = cid
      · simp [h, hk, ih]
      · simp [h, ih]

/-- If the duplicate lookup finds nothing, the looked-up key is absent
from the cart. -/
theorem key_not_mem_of_matching_nil (db : CartDB) (cid : Nat) (p : String)
    (v : Option String)
    (h : matchingItems db cid p v = []) :
    (p, v) ∉ ((db.items.filter fun it => decide (it.cartId = cid)).map itemKey) := by
  intro hmem
  rw [List.mem_map] at hmem
  obtain ⟨it, hit, hkey⟩ := hmem
  rw [List.mem_filter] at hit
  obtain ⟨hmem', hcid⟩ := hit
  have hin : it ∈ matchingItems db cid p v := by
    rw [matchingItems, List.mem_filter]
    refine ⟨hmem', ?_⟩
    simp only [decide_eq_true_eq] at hcid ⊢
    unfold itemKey at hkey
    injection hkey with h1 h2
    exact ⟨hcid, h1, h2⟩
  rw [h] at hin
  exact absurd hin (List.not_mem_nil it)

/-- In a cart with at most one row per key, the duplicate lookup returns
at most one row. -/
theorem matching_length_le_one (l : List CartItemRow) (cid : Nat) (p : String)
    (v : Option String)
    (hu : ((l.filter fun it => decide (it.cartId = cid)).map itemKey).Nodup) :
    (l.filter fun it =>
      decide (it.cartId = cid ∧ it.productId = p ∧ it.variantId = v)).length ≤ 1 := by
  induction l with
  | nil => simp
  | cons x xs ih =>
      by_cases hcid : x.cartId = cid
      · have hfilter : ((x :: xs).filter fun it => decide (it.cartId = cid)) =
            x :: (xs.filter fun it => decide (it.cartId = cid)) := by
          simp [List.filter_cons, hcid]
        rw [hfilter, List.map_cons, List.nodup_cons] at hu
        obtain ⟨hnotmem, hnodup⟩ := hu
        by_cases hkey : x.productId = p ∧ x.variantId = v
        · have hx : ((x :: xs).filter fun it =>
              decide (it.cartId = cid ∧ it.productId = p ∧ it.variantId = v)) =
              x :: (xs.filter fun it =>
                decide (it.cartId = cid ∧ it.productId = p ∧ it.variantId = v)) := by
            simp [List.filter_cons, hcid, hkey.1, hkey.2]
          rw [hx]
          have hnil : (xs.filter fun it =>
              decide (it.cartId = cid ∧ it.productId = p ∧ it.variantId = v)) = [] := by
            rw [List.filter_eq_nil_iff]
            intro a ha hcond
            simp only [decide_eq_true_eq] at hcond
            obtain ⟨ha1, ha2, ha3⟩ := hcond
            apply hnotmem
            rw [List.mem_map]
            refine ⟨a, ?_, ?_⟩
            · rw [List.mem_filter]
              exact ⟨ha, by simpa using ha1⟩
            · unfold itemKey
              rw [ha2, ha3, ← hkey.1, ← hkey.2]
          rw [hnil]
          simp
        · have hx : ((x :: xs).filter fun it =>
              decide (it.cartId = cid ∧ it.productId = p ∧ it.variantId = v)) =
              xs.filter fun it =>
                decide (it.cartId = cid ∧ it.productId = p ∧ it.variantId = v) := by
            rw [List.filter_cons]
            have : decide (x.cartId = cid ∧ x.productId = p ∧ x.variantId = v) = false := by
              simp only [decide_eq_false_iff_not]
              intro hcon
              exact hkey ⟨hcon.2.1, hcon.2.2⟩
            simp [this]
          rw [hx]
          exact ih hnodup
      · have h1 : ((x :: xs).filter fun it => decide (it.cartId = cid)) =
            xs.filter fun it => decide (it.cartId = cid) := by
          simp [List.filter_cons, hcid]
        rw [h1] at hu
        have h2 : ((x :: xs).filter fun it =>
            decide (it.cartId = cid ∧ it.productId = p ∧ it.variantId = v)) =
            xs.filter fun it =>
              decide (it.cartId = cid ∧ it.productId = p ∧ it.variantId = v) := by
          rw [List.filter_cons]
          have : decide (x.cartId = cid ∧ x.productId = p ∧ x.variantId = v) = false := by
            simp only [decide_eq_false_iff_not]
            intro hcon
            exact hcid hcon.1
          simp [this]
        rw [h2]
        exact ih hu

/-- Hex digits are never a dot. -/
theorem hexChar_ne_dot (n : Nat) (h : n < 16) : hexChar n ≠ '.' := by
  interval_cases n <;> decide

/-- A hex-encoded string contains no dot. -/
theorem hexEncode_no_dot (bytes : List Nat) :
    ∀ c ∈ (hexEncode bytes).data, c ≠ '.' := by
  intro c hc
  have hdata : (hexEncode bytes).data = (bytes.map hexEncodeByte).flatten := rfl
  rw [hdata, List.mem_flatten] at hc
  obtain ⟨l, hl, hcl⟩ := hc
  rw [List.mem_map] at hl
  obtain ⟨b, _, hb⟩ := hl
  subst hb
  unfold hexEncodeByte at hcl
  simp only [List.mem_cons, List.not_mem_nil, or_false] at hcl
  rcases hcl with h1 | h1
  · exact h1 ▸ hexChar_ne_dot _ (Nat.mod_lt _ (by norm_num))
  · exact h1 ▸ hexChar_ne_dot _ (Nat.mod_lt _ (by norm_num))

/-- Hex encoding a nonempty byte list gives a nonempty string. -/
theorem hexEncode_ne_empty (bytes : List Nat) (h : bytes ≠ []) :
    hexEncode bytes ≠ "" := by
  intro hcon
  rcases bytes with _ | ⟨b, rest⟩
  · exact h rfl
  · have := congrArg String.data hcon
    simp [hexEncode, hexEncodeByte] at this

/-- Splitting a sep-free list leaves one segment. -/
theorem jsSplitAux_no_sep (sep : Char) (l acc : List Char)
    (h : ∀ c ∈ l, c ≠ sep) :
    jsSplitAux sep l acc = [acc.reverse ++ l] := by
  induction l generalizing acc with
  | nil => simp [jsSplitAux]
  | cons c cs ih =>
      have hc : c ≠ sep := h c (by simp)
      unfold jsSplitAux
      rw [if_neg hc]
      rw [ih (c :: acc) (fun x hx => h x (by simp [hx]))]
      simp

/-- Splitting `a ++ sep :: b` with sep-free `a` and `b` gives the two
segments. -/
theorem jsSplitAux_sep_concat (sep : Char) (a b acc : List Char)
    (ha : ∀ c ∈ a, c ≠ sep) (hb : ∀ c ∈ b, c ≠ sep) :
    jsSplitAux sep (a ++ sep :: b) acc = [acc.reverse ++ a, b] := by
  induction a generalizing acc with
  | nil =>
      simp only [List.nil_append]
      unfold jsSplitAux
      rw [if_pos rfl]
      rw [jsSplitAux_no_sep sep b [] hb]
      simp
  | cons c cs ih =>
      have hc : c ≠ sep := ha c (by simp)
      simp only [List.cons_append]
      unfold jsSplitAux
      rw [if_neg hc]
      rw [ih (c :: acc) (fun x hx => ha x (by simp [hx]))]
      simp

/-- JavaScript `split('.')` of `a ++ "." ++ b` with dot-free `a` and `b`
is `[a, b]`. -/
theorem jsSplit_dot (a b : String)
    (ha : ∀ c ∈ a.data, c ≠ '.') (hb : ∀ c ∈ b.data, c ≠ '.') :
    jsSplit '.' (a ++ "." ++ b) = [a, b] := by
  have hdata : (a ++ "." ++ b).data = a.data ++ '.' :: b.data := by
    rw [String.data_append, String.data_append]
    have hdot : ("." : String).data = ['.'] := rfl
    rw [hdot, List.append_assoc]
    rfl
  unfold jsSplit
  rw [hdata]
  rw [jsSplitAux_sep_concat '.' a.data b.data [] ha hb]
  obtain ⟨da⟩ := a
  obtain ⟨db⟩ := b
  simp

/-- Every error toast has kind `error`. -/
theorem showErrorToast_kind (e : ApiError) : (showErrorToast e).kind = ToastKind.error := by
  unfold showErrorToast
  dsimp only
  split_ifs <;> rfl

/-- C3: for every error value passed to `clientErrorHandler.handleClientError`
— whatever its type, and whatever category or severity it normalizes to —
exactly one toast notification is shown to the user, and it is an error
toast.  This holds in every environment (`isDev`, `isProd`), for every
sanitizing pipeline, timestamp and context. -/
theorem clientErrorHandler_always_toasts (isDev isProd : Bool)
    (strip : String → String) (now : String) (endpoint : Option String) (e : JsError) :
    ∃ msg duration,
      handleClientError (clientErrorHandlerConfig isDev isProd) strip now endpoint e =
        [{ kind := ToastKind.error, message := msg, duration := duration }] := by
  refine ⟨(showErrorToast (normalizeError (clientErrorHandlerConfig isDev isProd)
    strip now endpoint e)).message,
    (showErrorToast (normalizeError (clientErrorHandlerConfig isDev isProd)
      strip now endpoint e)).duration, ?_⟩
  unfold handleClientError
  have hshow : (clientErrorHandlerConfig isDev isProd).showToast = true := rfl
  simp only [hshow, if_true]
  congr 1
  have hk := showErrorToast_kind (normalizeError (clientErrorHandlerConfig isDev isProd)
    strip now endpoint e)
  cases htoast : showErrorToast (normalizeError (clientErrorHandlerConfig isDev isProd)
    strip now endpoint e)
  rw [htoast] at hk
  simp_all

/-- C4: for every authenticated POST to the cart items endpoint with a
valid (truthy) `product_id` and positive quantity: when the user's cart
already holds an item with the same `(product_id, variant_id)` pair, the
handler responds 200, keeps the number of rows, raises exactly that
item's quantity by the requested amount and keeps every other row;
otherwise it responds 201 and appends a row whose quantity is exactly the
requested one (also when the user had no cart yet and one is created).
In all cases a cart with at most one row per pair before the call has at
most one row per pair after it. -/
theorem cartItemsPost_merges_duplicates (uid : String) (body : CartItemInput)
    (fc fi : Nat) (db : CartDB)
    (hvalid : productIdFalsy body.product_id = false)
    (hq : 0 < body.quantity) :
    (∀ c existing,
        db.carts.filter (fun c' => decide (c'.userId = uid)) = [c] →
        matchingItems db c.id (productIdString body.product_id) body.variant_id =
          [existing] →
        (postCartItem (some uid) body fc fi db).2 = 200 ∧
        (postCartItem (some uid) body fc fi db).1.items.length = db.items.length ∧
        (∃ it ∈ (postCartItem (some uid) body fc fi db).1.items,
          it.id = existing.id ∧ itemKey it = itemKey existing ∧
          it.cartId = existing.cartId ∧
          it.quantity = existing.quantity + body.quantity) ∧
        (∀ it ∈ db.items, it.id ≠ existing.id →
          it ∈ (postCartItem (some uid) body fc fi db).1.items)) ∧
    (∀ c,
        db.carts.filter (fun c' => decide (c'.userId = uid)) = [c] →
        matchingItems db c.id (productIdString body.product_id) body.variant_id = [] →
        (postCartItem (some uid) body fc fi db).2 = 201 ∧
        (postCartItem (some uid) body fc fi db).1.items =
          db.items ++ [{ id := fi, cartId := c.id
                         productId := productIdString body.product_id
                         variantId := body.variant_id, quantity := body.quantity }]) ∧
    (∀ c,
        db.carts.filter (fun c' => decide (c'.userId = uid)) = [c] →
        cartKeysUnique db c.id →
        cartKeysUnique (postCartItem (some uid) body fc fi db).1 c.id) ∧
    (db.carts.filter (fun c' => decide (c'.userId = uid)) = [] →
        (∀ it ∈ db.items, it.cartId ≠ fc) →
        (postCartItem (some uid) body fc fi db).2 = 201 ∧
        (postCartItem (some uid) body fc fi db).1.items =
          db.items ++ [{ id := fi, cartId := fc
                         productId := productIdString body.product_id
                         variantId := body.variant_id, quantity := body.quantity }] ∧
        cartKeysUnique (postCartItem (some uid) body fc fi db).1 fc) := by
  have hcond : (productIdFalsy body.product_id || decide (body.quantity ≤ 0)) = false := by
    rw [hvalid]
    simp only [Bool.false_or, decide_eq_false_iff_not, not_le]
    exact hq
  refine ⟨?_, ?_, ?_, ?_⟩
  · -- merge case
    intro c existing hcart hmatch
    have hpost : postCartItem (some uid) body fc fi db =
        addOrUpdateItem db c.id (productIdString body.product_id) body.variant_id
          body.quantity fi := by
      unfold postCartItem
      dsimp only
      rw [hcond, if_neg (by decide : ¬ (false = true)), hcart]
    have hsingle : singleRow (matchingItems db c.id (productIdString body.product_id)
        body.variant_id) = some existing := by
      rw [hmatch]; rfl
    have hadd : addOrUpdateItem db c.id (productIdString body.product_id) body.variant_id
        body.quantity fi =
        ({ db with items := db.items.map (bumpQuantity existing.id body.quantity) }, 200) := by
      unfold addOrUpdateItem
      rw [hsingle]
    rw [hpost, hadd]
    refine ⟨rfl, by simp, ?_, ?_⟩
    · refine ⟨bumpQuantity existing.id body.quantity existing, ?_, ?_, ?_, ?_, ?_⟩
      · have hex : existing ∈ db.items := by
          have := hmatch ▸ (List.mem_singleton.mpr rfl :
            existing ∈ [existing])
          rw [matchingItems] at this
          exact (List.mem_filter.mp this).1
        exact List.mem_map.mpr ⟨existing, hex, rfl⟩
      · exact (bumpQuantity_preserves existing.id body.quantity existing).2.2
      · exact (bumpQuantity_preserves existing.id body.quantity existing).1
      · exact (bumpQuantity_preserves existing.id body.quantity existing).2.1
      · unfold bumpQuantity
        simp
    · intro it hit hne
      have : bumpQuantity existing.id body.quantity it = it := by
        unfold bumpQuantity
        simp [hne]
      exact List.mem_map.mpr ⟨it, hit, this⟩
  · -- insert case (existing cart)
    intro c hcart hmatch
    have hpost : postCartItem (some uid) body fc fi db =
        addOrUpdateItem db c.id (productIdString body.product_id) body.variant_id
          body.quantity fi := by
      unfold postCartItem
      dsimp only
      rw [hcond, if_neg (by decide : ¬ (false = true)), hcart]
    have hsingle : singleRow (matchingItems db c.id (productIdString body.product_id)
        body.variant_id) = none := by
      rw [hmatch]; rfl
    have hadd : addOrUpdateItem db c.id (productIdString body.product_id) body.variant_id
        body.quantity fi =
        ({ db with items := db.items ++
            [{ id := fi, cartId := c.id, productId := productIdString body.product_id
               variantId := body.variant_id, quantity := body.quantity }] }, 201) := by
      unfold addOrUpdateItem
      rw [hsingle]
    rw [hpost, hadd]
    exact ⟨rfl, rfl⟩
  · -- uniqueness preservation (existing cart)
    intro c hcart huniq
    have hpost : postCartItem (some uid) body fc fi db =
        addOrUpdateItem db c.id (productIdString body.product_id) body.variant_id
          body.quantity fi := by
      unfold postCartItem
      dsimp only
      rw [hcond, if_neg (by decide : ¬ (false = true)), hcart]
    rw [hpost]
    have hlen := matching_length_le_one db.items c.id (productIdString body.product_id)
      body.variant_id huniq
    rcases hm : matchingItems db c.id (productIdString body.product_id) body.variant_id
      with _ | ⟨x, _ | ⟨y, ys⟩⟩
    · -- no existing row: append; the key was absent, so Nodup is kept
      have hsingle : singleRow (matchingItems db c.id (productIdString body.product_id)
          body.variant_id) = none := by rw [hm]; rfl
      unfold addOrUpdateItem
      rw [hsingle]
      unfold cartKeysUnique at huniq ⊢
      have hsingleton : ((([{ id := fi, cartId := c.id, productId := productIdString body.product_id, variantId := body.variant_id, quantity := body.quantity }]) : List CartItemRow).filter fun it => decide (it.cartId = c.id)).map itemKey = [(productIdString body.product_id, body.variant_id)] := by
        simp [itemKey]
      rw [List.filter_append, List.map_append, hsingleton, List.nodup_append]
      refine ⟨huniq, List.nodup_singleton _, ?_⟩
      intro k hk hk'
      rw [List.mem_singleton] at hk'
      subst hk'
      exact key_not_mem_of_matching_nil db c.id (productIdString body.product_id)
        body.variant_id hm hk
    · -- one existing row: quantities change, keys do not
      have hsingle : singleRow (matchingItems db c.id (productIdString body.product_id)
          body.variant_id) = some x := by rw [hm]; rfl
      unfold addOrUpdateItem
      rw [hsingle]
      unfold cartKeysUnique at huniq ⊢
      rw [keys_map_bump]
      exact huniq
    · -- several rows contradict uniqueness before the call
      exfalso
      rw [matchingItems] at hm
      rw [hm] at hlen
      simp at hlen
  · -- no cart yet: one is created and the item inserted into it
    intro hnone hfresh
    have hpost : postCartItem (some uid) body fc fi db =
        addOrUpdateItem { db with carts := db.carts ++ [{ id := fc, userId := uid }] }
          fc (productIdString body.product_id) body.variant_id body.quantity fi := by
      unfold postCartItem
      dsimp only
      rw [hcond, if_neg (by decide : ¬ (false = true)), hnone]
    have hmatch : matchingItems { db with carts := db.carts ++ [{ id := fc, userId := uid }] }
        fc (productIdString body.product_id) body.variant_id = [] := by
      rw [matchingItems]
      rw [List.filter_eq_nil_iff]
      intro a ha hcond'
      simp only [decide_eq_true_eq] at hcond'
      exact hfresh a ha hcond'.1
    have hsingle : singleRow (matchingItems
        { db with carts := db.carts ++ [{ id := fc, userId := uid }] }
        fc (productIdString body.product_id) body.variant_id) = none := by
      rw [hmatch]; rfl
    rw [hpost]
    unfold addOrUpdateItem
    rw [hsingle]
    refine ⟨rfl, rfl, ?_⟩
    unfold cartKeysUnique
    simp only [List.filter_append, List.map_append]
    have hbase : (db.items.filter fun it => decide (it.cartId = fc)) = [] := by
      rw [List.filter_eq_nil_iff]
      intro a ha hcond'
      simp only [decide_eq_true_eq] at hcond'
      exact hfresh a ha hcond'
    rw [hbase]
    simp

/-- Witness for C4 at a concrete database: user `"u"` has cart 1 holding
two units of product 42 variant `v1`; posting three more units of the
same variant responds 200 and the row's quantity becomes five, while
posting a unit of variant `v2` responds 201 and appends a row of
quantity one. -/
theorem cartItemsPost_merges_duplicates_witness :
    (postCartItem (some "u") ⟨ProductIdVal.num 42, some "v1", 3⟩ 5 6
      ⟨[⟨1, "u"⟩], [⟨10, 1, "42", some "v1", 2⟩]⟩).2 = 200 ∧
    (∃ it ∈ (postCartItem (some "u") ⟨ProductIdVal.num 42, some "v1", 3⟩ 5 6
      ⟨[⟨1, "u"⟩], [⟨10, 1, "42", some "v1", 2⟩]⟩).1.items,
        it.id = 10 ∧ it.quantity = 5) ∧
    (postCartItem (some "u") ⟨ProductIdVal.num 42, some "v2", 1⟩ 5 6
      ⟨[⟨1, "u"⟩], [⟨10, 1, "42", some "v1", 2⟩]⟩).2 = 201 := by
  have h1 := (cartItemsPost_merges_duplicates "u" ⟨ProductIdVal.num 42, some "v1", 3⟩ 5 6
    ⟨[⟨1, "u"⟩], [⟨10, 1, "42", some "v1", 2⟩]⟩ (by decide) (by decide)).1
    ⟨1, "u"⟩ ⟨10, 1, "42", some "v1", 2⟩ (by decide) (by decide)
  have h2 := (cartItemsPost_merges_duplicates "u" ⟨ProductIdVal.num 42, some "v2", 1⟩ 5 6
    ⟨[⟨1, "u"⟩], [⟨10, 1, "42", some "v1", 2⟩]⟩ (by decide) (by decide)).2.1
    ⟨1, "u"⟩ (by decide) (by decide)
  refine ⟨h1.1, ?_, h2.1⟩
  obtain ⟨it, hit, hid, _, _, hqty⟩ := h1.2.2.1
  exact ⟨it, hit, hid, by rw [hqty]; decide⟩

/-- C8: CSRF token signing round-trips — for every token produced by
`generateToken` (the hex encoding of the random bytes drawn), verifying
the signed token succeeds, for any HMAC with nonempty digests; and
`validateToken` accepts a request exactly when it carries a (truthy)
cookie token and a (truthy) header token, the cookie token passes
`verifySignedToken`, and the part of the cookie token before the dot
equals the header token. -/
theorem csrf_sign_roundtrip_and_validate (hmac : String → String → List Nat)
    (secret : String) :
    (∀ rand : List Nat, rand ≠ [] → hmac secret (generateToken rand) ≠ [] →
        verifySignedToken hmac secret
          (createSignedToken hmac secret (generateToken rand)) = true) ∧
    (∀ r : CsrfRequest, validateToken hmac secret r = true ↔
        ∃ c h, getTokenFromCookie r = some c ∧ getTokenFromHeader r = some h ∧
          h ≠ "" ∧ verifySignedToken hmac secret c = true ∧
          (jsSplit '.' c).headD "" = h) := by
  constructor
  · intro rand hrand hdig
    have hsplit : jsSplit '.' (createSignedToken hmac secret (generateToken rand)) =
        [generateToken rand, hexEncode (hmac secret (generateToken rand))] := by
      unfold createSignedToken
      exact jsSplit_dot (generateToken rand)
        (hexEncode (hmac secret (generateToken rand)))
        (hexEncode_no_dot rand) (hexEncode_no_dot _)
    unfold verifySignedToken
    rw [hsplit]
    have ht : generateToken rand ≠ "" := hexEncode_ne_empty rand hrand
    have hs : hexEncode (hmac secret (generateToken rand)) ≠ "" :=
      hexEncode_ne_empty _ hdig
    simp [ht, hs]
  · intro r
    unfold validateToken
    rcases hcook : getTokenFromCookie r with _ | c <;>
      rcases hhead : getTokenFromHeader r with _ | h
    · simp
    · simp
    · simp
    · constructor
      · intro hv
        dsimp only at hv
        by_cases hhe : h = ""
        · rw [if_pos hhe] at hv
          simp at hv
        · rw [if_neg hhe] at hv
          rcases hver : verifySignedToken hmac secret c with _ | _
          · rw [hver] at hv
            simp at hv
          · rw [hver] at hv
            simp only [if_true, decide_eq_true_eq] at hv
            refine ⟨c, h, rfl, rfl, hhe, hver, ?_⟩
            simpa using hv
      · rintro ⟨c', h', hc', hh', hne, hver, heq⟩
        injection hc' with hc'
        injection hh' with hh'
        subst hc'
        subst hh'
        dsimp only
        rw [if_neg hne, hver]
        simpa using heq

/-- Witness for C8 at a concrete HMAC (constant digest `[0]`), secret
`"s"` and one random byte `171`: the signed token verifies, and a request
carrying the signed token in the cookie and the bare token in the header
validates. -/
theorem csrf_sign_roundtrip_and_validate_witness :
    verifySignedToken (fun _ _ => [0]) "s"
      (createSignedToken (fun _ _ => [0]) "s" (generateToken [171])) = true ∧
    validateToken (fun _ _ => [0]) "s"
      ⟨some (createSignedToken (fun _ _ => [0]) "s" (generateToken [171])),
        some (generateToken [171])⟩ = true := by
  have hrt := (csrf_sign_roundtrip_and_validate (fun _ _ => [0]) "s").1 [171]
    (by decide) (by decide)
  refine ⟨hrt, ?_⟩
  rw [(csrf_sign_roundtrip_and_validate (fun _ _ => [0]) "s").2]
  refine ⟨createSignedToken (fun _ _ => [0]) "s" (generateToken [171]),
    generateToken [171], ?_, rfl, by decide, hrt, ?_⟩
  · unfold getTokenFromCookie
    simp only []
    rw [if_neg (by decide)]
  · decide

/-- C5: every cart operation exposed by the cart context is applying the
pure reducer to the current list of line items (the open/closed flag is
untouched), and the totals are the sum of the quantities and of price
times quantity: adding a product with quantity 2 at price 29.99 yields
total items 2 and total price 59.98, and adding the same variant again
yields 4 and 119.96. -/
theorem cart_context_refines_reducer :
    (∀ (s : CartState) (pid vid : String) (price : ℚ) (qty : Nat),
      addItem s pid vid price qty =
        { s with items := cartReducer s.items (CartAction.addItem pid vid price qty) }) ∧
    (∀ (s : CartState) (pid vid : String),
      removeItem s pid vid =
        { s with items := cartReducer s.items (CartAction.removeItem pid vid) }) ∧
    (∀ (s : CartState) (pid vid : String) (qty : Nat),
      updateQuantity s pid vid qty =
        { s with items := cartReducer s.items (CartAction.updateQuantity pid vid qty) }) ∧
    (∀ s : CartState,
      clearCart s = { s with items := cartReducer s.items CartAction.clearCart }) ∧
    getTotalItems (cartReducer [] (CartAction.addItem "p1" "v1" (2999/100) 2)) = 2 ∧
    getTotalPrice (cartReducer [] (CartAction.addItem "p1" "v1" (2999/100) 2)) =
      5998/100 ∧
    getTotalItems (cartReducer (cartReducer [] (CartAction.addItem "p1" "v1" (2999/100) 2))
      (CartAction.addItem "p1" "v1" (2999/100) 2)) = 4 ∧
    getTotalPrice (cartReducer (cartReducer [] (CartAction.addItem "p1" "v1" (2999/100) 2))
      (CartAction.addItem "p1" "v1" (2999/100) 2)) = 11996/100 := by
  have h1 : cartReducer [] (CartAction.addItem "p1" "v1" (2999/100) 2) =
      [{ productId := "p1", variantId := "v1", price := 2999/100, quantity := 2 }] := by
    simp [cartReducer]
  have h2 : cartReducer
      [{ productId := "p1", variantId := "v1", price := 2999/100, quantity := 2 }]
      (CartAction.addItem "p1" "v1" (2999/100) 2) =
      [{ productId := "p1", variantId := "v1", price := 2999/100, quantity := 4 }] := by
    simp [cartReducer]
  refine ⟨?_, ?_, ?_, ?_, by rw [h1]; decide, ?_, by rw [h1, h2]; decide, ?_⟩
  · intro s pid vid price qty
    rcases hf : s.items.find?
        (fun it => decide (it.productId = pid ∧ it.variantId = vid)) with _ | x
    · have hany : (s.items.any
          fun it => decide (it.productId = pid ∧ it.variantId = vid)) = false := by
        rw [List.any_eq_false]
        intro a ha
        have := List.find?_eq_none.mp hf a ha
        simpa using this
      dsimp only [addItem, cartReducer]
      rw [hf, hany]
      simp
    · have hmem := List.mem_of_find?_eq_some hf
      have hpx := List.find?_some hf
      have hany : (s.items.any
          fun it => decide (it.productId = pid ∧ it.variantId = vid)) = true :=
        List.any_eq_true.mpr ⟨x, hmem, by simpa using hpx⟩
      dsimp only [addItem, cartReducer]
      rw [hf, hany]
      simp
  · intro s pid vid
    rfl
  · intro s pid vid qty
    unfold updateQuantity removeItem cartReducer
    by_cases hq : qty = 0
    · simp [hq]
    · simp [hq]
  · intro s
    rfl
  · rw [h1]
    unfold getTotalPrice
    simp
    norm_num
  · rw [h1, h2]
    unfold getTotalPrice
    simp
    norm_num

/-- C7: the app exposes route handlers for each of the four areas the
specification names: cart (a `POST` for cart items, among others),
checkout, newsletter, and feeds (a `GET` for the merchant feed index). -/
theorem api_route_surface :
    (∃ rt ∈ appApiRoutes, rt.area = ApiArea.cart ∧ rt.method = "POST") ∧
    (∃ rt ∈ appApiRoutes, rt.area = ApiArea.checkout) ∧
    (∃ rt ∈ appApiRoutes, rt.area = ApiArea.newsletter) ∧
    (∃ rt ∈ appApiRoutes, rt.area = ApiArea.feeds ∧ rt.method = "GET") := by
  decide

end Originz
